import Mathlib

/-!
# Voucher relay (`src/index.js`): signed-request protocol and voucher validation

A shallow embedding of `src/index.js`.  JavaScript values are a small untyped
value type, asynchronous functions are state-passing functions that may raise,
and the libraries the file calls (`got`, `paseto.js`, `crypto`, `JSON`,
`Date`, `querystring`) are parameters collected in `Env`.  Every upstream call,
every `JSON.stringify` call and every console line is recorded in the state so
that properties of the traffic can be stated.
-/

namespace Voucher

/-! ## JavaScript values -/

/-- Numbers: `NaN`, the two infinities and the finite values. -/
inductive JSNum where
  | nan
  | inf (negative : Bool)
  | fin (q : ℚ)

/-- Untyped JavaScript values as they occur in parsed JSON bodies, request
objects and results.  Objects are association lists in insertion order. -/
inductive JSVal where
  | undefined
  | null
  | bool (b : Bool)
  | num (n : JSNum)
  | str (s : String)
  | arr (xs : List JSVal)
  | obj (fields : List (String × JSVal))

/-- Truthiness of a number: everything but `0` and `NaN`. -/
def JSNum.truthy : JSNum → Bool
  | .nan => false
  | .inf _ => true
  | .fin q => decide (q ≠ 0)

/-- Truthiness as used by `!x`, `if(x)`, `&&` and `||`. -/
def truthy : JSVal → Bool
  | .undefined => false
  | .null => false
  | .bool b => b
  | .num n => n.truthy
  | .str s => decide (s ≠ "")
  | .arr _ => true
  | .obj _ => true

/-- Whether `Array.isArray` holds. -/
def isArray : JSVal → Bool
  | .arr _ => true
  | _ => false

/-- Error objects: `name`, `message`, and the `response` that `got` attaches to
an HTTP error (`undefined` when the error carries none). -/
structure JSError where
  name : String
  message : String
  response : JSVal

/-- The value of `new Error(msg)`. -/
def mkError (msg : String) : JSError :=
  { name := "Error", message := msg, response := .undefined }

/-- The `TypeError` the runtime raises when property `prop` is read from
`undefined` or `null`. -/
def typeError (prop : String) : JSError :=
  { name := "TypeError",
    message := "Cannot read properties of undefined or null (reading " ++ prop ++ ")",
    response := .undefined }

/-- The `TypeError` that `Buffer.from(undefined, 'base64')` raises. -/
def invalidArgType : JSError :=
  { name := "TypeError", message := "ERR_INVALID_ARG_TYPE", response := .undefined }

/-- An error object as a value (for `console.error(err)` and `err && ...`). -/
def JSError.toJS (e : JSError) : JSVal :=
  .obj [("name", .str e.name), ("message", .str e.message), ("response", e.response)]

/-- Field lookup in an object's association list; a missing key reads as
`undefined`. -/
def field (fs : List (String × JSVal)) (k : String) : JSVal :=
  match fs.lookup k with
  | some v => v
  | none => .undefined

/-- Property read `v.k` for the property names this program reads (`success`,
`voucher`, `expirationDate`, `isUsed`, `body`, `id`, ...): raises a
`TypeError` on `undefined` and `null`, looks the key up on an object, and is
`undefined` on the other primitives and on arrays, none of which has such a
property. -/
def getProp (v : JSVal) (k : String) : Except JSError JSVal :=
  match v with
  | .undefined => .error (typeError k)
  | .null => .error (typeError k)
  | .obj fs => .ok (field fs k)
  | _ => .ok .undefined

/-- `Buffer.from(s)` on one character: its UTF-8 bytes. -/
def utf8EncodeChar (c : Char) : List Nat :=
  let v := c.toNat
  if v ≤ 0x7f then [v]
  else if v ≤ 0x7ff then [0xc0 + v / 64, 0x80 + v % 64]
  else if v ≤ 0xffff then [0xe0 + v / 4096, 0x80 + (v / 64) % 64, 0x80 + v % 64]
  else [0xf0 + v / 262144, 0x80 + (v / 4096) % 64, 0x80 + (v / 64) % 64, 0x80 + v % 64]

/-- `Buffer.from(s)`: the UTF-8 bytes of a string. -/
def bufferFrom (s : String) : List Nat :=
  s.toList.flatMap utf8EncodeChar

/-! ## Upstream traffic, console, and the inbound response object -/

/-- A `got` response: the parsed JSON body and the response headers. -/
structure Response where
  body : JSVal
  headers : List (String × String)

/-- `res.headers[k]`: the header value, `undefined` when absent. -/
def Response.header (r : Response) (k : String) : JSVal :=
  match r.headers.lookup k with
  | some v => .str v
  | none => .undefined

/-- A response object as a value (for `console.error(res)`). -/
def Response.toJS (r : Response) : JSVal :=
  .obj [("body", r.body), ("headers", .obj (r.headers.map fun kv => (kv.1, .str kv.2)))]

/-- What `sess.post` is given as the request body: `json: v` or `body: bytes`. -/
inductive ReqBody where
  | json (v : JSVal)
  | raw (bytes : List Nat)

/-- One `sess.post(url, options)` call; `sess` identifies the cookie-jar
session the call is made on. -/
structure Call where
  sess : Nat
  url : String
  body : ReqBody
  headers : List (String × String)

/-- A call together with how it settled: a response, or a raised error. -/
structure Exchange where
  call : Call
  outcome : Except JSError Response

/-- A console line. -/
inductive LogLine where
  | log (v : JSVal)
  | error (v : JSVal)

/-- The `http.ServerResponse` of the inbound request being handled. -/
structure ServerResponse where
  statusCode : Nat
  headersSent : Bool
  headers : List (String × String)
  written : List String
  ended : Bool

/-- The private key object produced by `PrivateKey.V2` injection. -/
structure PrivateKey where
  material : List Nat

/-- The libraries and configuration the program runs against. -/
structure Env where
  /-- `process.env.API_URL` as it appears inside a template literal. -/
  API_URL : String
  /-- `process.env.API_KEY` (`undefined` when unset). -/
  API_KEY : JSVal
  /-- `process.env.API_SECRET` (`none` when unset). -/
  API_SECRET : Option String
  /-- `Buffer.from(s, 'base64')`. -/
  base64 : String → List Nat
  /-- `new Paseto.PrivateKey.V2()` followed by `key.inject(bytes)`. -/
  inject : List Nat → Except JSError PrivateKey
  /-- `new Paseto.V2().sign(message, key)`. -/
  sign : List Nat → PrivateKey → String
  /-- `createHash('sha256').update(bytes).digest('hex')`. -/
  sha256hex : List Nat → String
  /-- `JSON.stringify` on objects and `null`. -/
  stringify : JSVal → String
  /-- `Date.parse`: a time value in milliseconds, `none` for `NaN`. -/
  dateParse : JSVal → Option Int
  /-- `Date.now()`. -/
  now : Int
  /-- Global `parseInt`. -/
  parseInt : JSVal → JSVal
  /-- `querystring.parse`: the fields of the parsed object. -/
  qsParse : String → List (String × JSVal)
  /-- The upstream service behind `sess.post`, given the exchanges so far. -/
  upstream : List Exchange → Call → Except JSError Response

/-- The mutable state a run touches. -/
structure World where
  /-- The module variable `_key`. -/
  _key : Option PrivateKey
  /-- Number of sessions created so far (`got.extend` with a new cookie jar). -/
  sessions : Nat
  /-- Upstream calls made so far, oldest first. -/
  trace : List Exchange
  /-- Arguments of the `JSON.stringify` calls made so far, oldest first. -/
  stringified : List JSVal
  /-- Console output so far, oldest first. -/
  console : List LogLine
  /-- The response object of the inbound request. -/
  res : ServerResponse

/-! ## Asynchronous functions as state-passing computations -/

/-- A computation that reads and updates the world and either returns a value
or raises an error.  State changes made before a raise are kept. -/
def JS (α : Type) : Type := World → Except JSError α × World

/-- Return a value. -/
@[simp]
def JS.pure {α : Type} (a : α) : JS α := fun w => (.ok a, w)

/-- Sequence two computations; a raise in the first skips the second. -/
@[simp]
def JS.bind {α β : Type} (m : JS α) (f : α → JS β) : JS β := fun w =>
  match m w with
  | (.ok a, w1) => f a w1
  | (.error e, w1) => (.error e, w1)

instance : Monad JS where
  pure := JS.pure
  bind := JS.bind

/-- The statement `throw e`. -/
@[simp]
def JS.throw {α : Type} (e : JSError) : JS α := fun w => (.error e, w)

/-- The statement `try { body } catch(err) { handler }`. -/
@[simp]
def JS.tryCatch {α : Type} (body : JS α) (handler : JSError → JS α) : JS α := fun w =>
  match body w with
  | (.ok a, w1) => (.ok a, w1)
  | (.error e, w1) => handler e w1

/-- A pure step that may raise. -/
@[simp]
def JS.ofExcept {α : Type} (x : Except JSError α) : JS α := fun w => (x, w)

/-- The call `console.error(v)`. -/
@[simp]
def consoleError (v : JSVal) : JS Unit := fun w =>
  (.ok (), { w with console := w.console ++ [.error v] })

/-- The call `console.log(v)`. -/
@[simp]
def consoleLog (v : JSVal) : JS Unit := fun w =>
  (.ok (), { w with console := w.console ++ [.log v] })

/-- The call `JSON.stringify(v)`. -/
@[simp]
def jsonStringify (env : Env) (v : JSVal) : JS String := fun w =>
  (.ok (env.stringify v), { w with stringified := w.stringified ++ [v] })

/-- The expression `got.extend({ cookieJar: new cookies.CookieJar(), ... })`: a
fresh session. -/
@[simp]
def newSession : JS Nat := fun w =>
  (.ok w.sessions, { w with sessions := w.sessions + 1 })

/-- The call `sess.post(url, options)`: ask the upstream and record the exchange. -/
@[simp]
def post (env : Env) (c : Call) : JS Response := fun w =>
  let out := env.upstream w.trace c
  (out, { w with trace := w.trace ++ [{ call := c, outcome := out }] })

/-! ## The program -/

/-- Function `getKey` of `src/index.js` (lines 14-23). -/
def getKey (env : Env) : JS PrivateKey := fun w =>
  match w._key with
  | some k => (.ok k, w)
  | none =>
    match env.API_SECRET with
    | none => (.error invalidArgType, w)
    | some secret =>
      match env.inject (env.base64 secret) with
      | .error e => (.error e, w)
      | .ok key => (.ok key, { w with _key := some key })

/-- Function `getNonce` of `src/index.js` (lines 25-33). -/
def getNonce (env : Env) (sess : Nat) : JS JSVal := do
  let res ← post env
    { sess := sess, url := env.API_URL ++ "/partner/nonce", body := .json (.obj []), headers := [] }
  let success ← JS.ofExcept (getProp res.body "success")
  if !truthy success then
    consoleError res.toJS
    JS.throw (mkError "bad response")
  else
    pure (res.header "x-nonce")

/-- Function `get` of `src/index.js` (lines 35-72). -/
def get (env : Env) (id : JSVal) : JS JSVal := do
  let key ← getKey env
  let sess ← newSession
  let nonce ← getNonce env sess
  let req := JSVal.obj [("id", id), ("apiKey", env.API_KEY), ("nonce", nonce)]
  let rawBody := bufferFrom (← jsonStringify env req)
  let hash := env.sha256hex rawBody
  let sig := env.sign (bufferFrom hash) key
  let res ← post env
    { sess := sess, url := env.API_URL ++ "/partner/voucher/get", body := .raw rawBody,
      headers := [("Content-Type", "application/json"), ("x-signature", sig)] }
  let voucher ← JS.ofExcept (getProp res.body "voucher")
  let success ← JS.ofExcept (getProp res.body "success")
  if !truthy success then
    return .obj [("success", .bool false), ("upstreamResponse", res.body)]
  let expirationDate ← JS.ofExcept (getProp voucher "expirationDate")
  if (match env.dateParse expirationDate with
      | some t => decide (t < env.now)
      | none => false) then
    return .obj [("success", .bool false), ("reason", .str "expired")]
  let isUsed ← JS.ofExcept (getProp voucher "isUsed")
  if truthy isUsed then
    return .obj [("success", .bool false), ("reason", .str "used")]
  return .obj [("success", .bool true), ("voucher", voucher)]

/-- Function `use` of `src/index.js` (lines 74-109). -/
def use (env : Env) (cartAmount vouchers : JSVal) : JS JSVal := do
  let key ← getKey env
  let sess ← newSession
  let nonce ← getNonce env sess
  let req := JSVal.obj [("cartAmount", env.parseInt cartAmount), ("vouchers", vouchers),
    ("apiKey", env.API_KEY), ("nonce", nonce)]
  let rawBody := bufferFrom (← jsonStringify env req)
  let hash := env.sha256hex rawBody
  let sig := env.sign (bufferFrom hash) key
  JS.tryCatch
    (do
      let res ← post env
        { sess := sess, url := env.API_URL ++ "/partner/voucher/use", body := .raw rawBody,
          headers := [("Content-Type", "application/json"), ("x-signature", sig)] }
      let success ← JS.ofExcept (getProp res.body "success")
      if !truthy success then
        return .obj [("success", .bool false), ("upstreamResponse", res.body)]
      return .obj [("success", .bool true)])
    (fun err => do
      let res := err.response
      let body ← JS.ofExcept (getProp res "body")
      consoleError (.obj [("cartAmount", cartAmount), ("vouchers", vouchers), ("result", body)])
      JS.throw err)


/-- The getter `res.headersSent`. -/
@[simp]
def headersSent : JS Bool := fun w => (.ok w.res.headersSent, w)

/-- The call `res.writeHeader(status)` (alias of `writeHead`): raises once the
headers are out, otherwise fixes the status and marks the headers as sent. -/
def writeHeader (status : Nat) : JS Unit := fun w =>
  if w.res.headersSent then (.error (mkError "ERR_HTTP_HEADERS_SENT"), w)
  else (.ok (), { w with res := { w.res with statusCode := status, headersSent := true } })

/-- The call `res.setHeader(name, value)`. -/
def setHeader (name value : String) : JS Unit := fun w =>
  if w.res.headersSent then (.error (mkError "ERR_HTTP_HEADERS_SENT"), w)
  else (.ok (), { w with res := { w.res with headers := w.res.headers ++ [(name, value)] } })

/-- The call `res.write(chunk)`: sends the headers if they are not out yet and
appends the chunk; writing to a finished response is an error. -/
def resWrite (chunk : String) : JS Unit := fun w =>
  if w.res.ended then (.error (mkError "ERR_STREAM_WRITE_AFTER_END"), w)
  else (.ok (),
    { w with res := { w.res with headersSent := true, written := w.res.written ++ [chunk] } })

/-- The call `res.end(chunk)` / `res.end()`: sends the headers if they are not
out yet, appends the chunk if there is one and finishes the response; a second
`end` does nothing. -/
def resEnd (chunk : Option String) : JS Unit := fun w =>
  if w.res.ended then (.ok (), w)
  else (.ok (),
    { w with res := { w.res with headersSent := true,
                                 written := w.res.written ++ chunk.toList, ended := true } })

/-- The expressions for `path` and `qs` (lines 113-115): the URL before the
first `?` and the URL after it (empty when there is no `?`). -/
def splitUrl (url : String) : String × String :=
  (String.mk (url.toList.takeWhile fun c => c != '?'),
   String.mk ((url.toList.dropWhile fun c => c != '?').drop 1))

/-- The arrow function `toArray` (line 120). -/
def toArray (val : JSVal) : JSVal :=
  if isArray val then val else .arr [val]

/-- The body of the async arrow function of the request listener (lines 112-140). -/
def route (env : Env) (url : String) : JS Unit := do
  let path := (splitUrl url).1
  let qs := (splitUrl url).2
  let params := env.qsParse qs
  consoleLog (.str path)
  consoleLog (.obj params)
  let result ←
    if path = "/smarketoo/voucher/get" then
      get env (field params "id")
    else if path = "/smarketoo/voucher/use" then
      use env (env.parseInt (field params "cartAmount")) (toArray (field params "vouchers[]"))
    else do
      writeHeader 404
      pure JSVal.null
  if !(← headersSent) then
    setHeader "Content-Type" "application/json"
    writeHeader 200
  resWrite (← jsonStringify env result)
  resEnd none

/-- The `.catch` callback of the request listener (lines 141-153). -/
def onError (env : Env) (err : JSError) : JS Unit := do
  consoleError err.toJS
  if !(← headersSent) then
    writeHeader 500
  if truthy err.response then
    consoleError (← JS.ofExcept (getProp err.response "body"))
  let a := if truthy err.toJS then err.response else err.toJS
  let b ← if truthy a then JS.ofExcept (getProp a "body") else pure a
  let upstreamError := if truthy b then b else JSVal.null
  resEnd (some (← jsonStringify env
    (.obj [("success", .bool false), ("upstreamError", upstreamError)])))

/-- The request listener passed to `createServer` (lines 111-154), for a
request with URL `url`. -/
def handler (env : Env) (url : String) : JS Unit :=
  JS.tryCatch (route env url) (onError env)

/-! ## Descriptions of a run, used to state what the program does -/

/-- The handshake call `sess.post(API_URL/partner/nonce, { json: {} })`. -/
def nonceCall (env : Env) (sess : Nat) : Call :=
  { sess := sess, url := env.API_URL ++ "/partner/nonce", body := .json (.obj []), headers := [] }

/-- Whether a handshake settled with a response whose envelope has a truthy
`success` flag, which is when `getNonce` returns the nonce. -/
def handshakeOk (out : Except JSError Response) : Bool :=
  match out with
  | .ok r =>
    match getProp r.body "success" with
    | .ok s => truthy s
    | .error _ => false
  | .error _ => false

/-- The request object `get` builds (lines 41-45). -/
def getReq (env : Env) (id nonce : JSVal) : JSVal :=
  .obj [("id", id), ("apiKey", env.API_KEY), ("nonce", nonce)]

/-- The request object `use` builds (lines 80-85). -/
def useReq (env : Env) (cartAmount vouchers nonce : JSVal) : JSVal :=
  .obj [("cartAmount", env.parseInt cartAmount), ("vouchers", vouchers),
    ("apiKey", env.API_KEY), ("nonce", nonce)]

/-- The signature header value for body bytes `b`: the signing primitive
applied to the UTF-8 bytes of the lowercase-hex SHA-256 digest of `b`. -/
def signatureOf (env : Env) (b : List Nat) (key : PrivateKey) : String :=
  env.sign (bufferFrom (env.sha256hex b)) key

/-- What `get` returns or raises once the signed POST has settled with `out`
(lines 50-71 after the call). -/
def getTail (env : Env) (out : Except JSError Response) : Except JSError JSVal :=
  match out with
  | .error e => .error e
  | .ok res =>
    match getProp res.body "voucher" with
    | .error e => .error e
    | .ok voucher =>
      match getProp res.body "success" with
      | .error e => .error e
      | .ok success =>
        if truthy success = false then
          .ok (.obj [("success", .bool false), ("upstreamResponse", res.body)])
        else
          match getProp voucher "expirationDate" with
          | .error e => .error e
          | .ok expirationDate =>
            if (match env.dateParse expirationDate with
                | some t => decide (t < env.now)
                | none => false) = true then
              .ok (.obj [("success", .bool false), ("reason", .str "expired")])
            else
              match getProp voucher "isUsed" with
              | .error e => .error e
              | .ok isUsed =>
                if truthy isUsed = true then
                  .ok (.obj [("success", .bool false), ("reason", .str "used")])
                else .ok (.obj [("success", .bool true), ("voucher", voucher)])

/-- What the `catch` block of `use` does with a caught error (lines 104-108):
the error it raises and the console lines it writes. -/
def useCatch (cartAmount vouchers : JSVal) (err : JSError) : Except JSError JSVal × List LogLine :=
  match getProp err.response "body" with
  | .error e => (.error e, [])
  | .ok body =>
    (.error err,
      [.error (.obj [("cartAmount", cartAmount), ("vouchers", vouchers), ("result", body)])])

/-- What `use` returns or raises, and the console lines it writes, once the
signed POST has settled with `out` (lines 90-108 after the call). -/
def useTail (cartAmount vouchers : JSVal) (out : Except JSError Response) :
    Except JSError JSVal × List LogLine :=
  match out with
  | .error err => useCatch cartAmount vouchers err
  | .ok res =>
    match getProp res.body "success" with
    | .error e => useCatch cartAmount vouchers e
    | .ok success =>
      if truthy success = false then
        (.ok (.obj [("success", .bool false), ("upstreamResponse", res.body)]), [])
      else (.ok (.obj [("success", .bool true)]), [])

/-- Whether an exchange is a signed POST: its call carries an `x-signature`
header. -/
def Exchange.isSigned (x : Exchange) : Bool :=
  (x.call.headers.lookup "x-signature").isSome

/-- Whether an exchange is a handshake POST: its call goes to the nonce
endpoint. -/
def Exchange.isHandshake (env : Env) (x : Exchange) : Bool :=
  decide (x.call.url = env.API_URL ++ "/partner/nonce")

/-- That the signed POST `sp` carries the nonce taken from the `x-nonce`
header of the handshake response `hres`: the response has that header, and the
body of `sp` is the serialization of the request object holding its value. -/
def CarriesHeaderNonce (env : Env) (reqOf : JSVal → JSVal) (hres : Response)
    (sp : Exchange) : Prop :=
  ∃ n, hres.headers.lookup "x-nonce" = some n ∧
    sp.call.body = .raw (bufferFrom (env.stringify (reqOf (.str n))))

/-- That the body of the signed POST `sp` is built from what reading the
`x-nonce` header of the handshake response `hres` gives: when the header is
present with value `n`, the body is the serialization of the request object
holding the nonce `n`; when the header is absent, the body is the
serialization of the request object whose `nonce` is `undefined`. -/
def BuiltFromHeaderRead (env : Env) (reqOf : JSVal → JSVal) (hres : Response)
    (sp : Exchange) : Prop :=
  (∀ n, hres.headers.lookup "x-nonce" = some n →
    sp.call.body = .raw (bufferFrom (env.stringify (reqOf (.str n))))) ∧
  (hres.headers.lookup "x-nonce" = none →
    sp.call.body = .raw (bufferFrom (env.stringify (reqOf .undefined))))

/-- The nonce discipline over the upstream calls `new` made by one invocation
that ended with `result` and whose request object, for a nonce `n`, is
`reqOf n`:
* every signed POST comes after a handshake POST on the same session whose
  envelope had a truthy `success` flag, and its body is built from what reading
  that handshake's `x-nonce` header gives (`BuiltFromHeaderRead`);
* every handshake whose envelope had a truthy `success` flag is followed by
  exactly one signed POST: the invocation made exactly one, on the same
  session, built from what reading that handshake's `x-nonce` header gives, so
  a nonce present in the header is carried by exactly one signed POST;
* when the handshake envelope's `success` flag is falsy, or the handshake call
  failed, the invocation raised and the handshake is the only upstream call it
  made: no signed POST and no second attempt. -/
def NonceDiscipline (env : Env) (reqOf : JSVal → JSVal) (result : Except JSError JSVal)
    (new : List Exchange) : Prop :=
  (∀ pre sp post, new = pre ++ sp :: post → sp.isSigned = true →
    ∃ hs hres, hs ∈ pre ∧ hs.isHandshake env = true ∧ hs.call.sess = sp.call.sess ∧
      hs.outcome = .ok hres ∧ handshakeOk (.ok hres) = true ∧
      BuiltFromHeaderRead env reqOf hres sp) ∧
  (∀ hs hres, hs ∈ new → hs.isHandshake env = true → hs.outcome = .ok hres →
    handshakeOk (.ok hres) = true →
    ∃ sp, new.filter Exchange.isSigned = [sp] ∧ sp.call.sess = hs.call.sess ∧
      BuiltFromHeaderRead env reqOf hres sp) ∧
  (∀ hs, hs ∈ new → hs.isHandshake env = true → handshakeOk hs.outcome = false →
    (∃ e, result = .error e) ∧ new = [hs])

/-- Whether field `k` of a result object is populated: present with a value
other than `undefined`, which is when it appears in the JSON written back. -/
def populated (r : JSVal) (k : String) : Bool :=
  match getProp r k with
  | .ok .undefined => false
  | .ok _ => true
  | .error _ => false

/-- How many of the three fields `voucher` (the payload), `reason` and
`upstreamResponse` (the upstream envelope) of a result are populated. -/
def populatedCount (r : JSVal) : Nat :=
  (["voucher", "reason", "upstreamResponse"].filter (populated r)).length

/-- The upstream body attached to an error, when the error has a response
whose body is truthy. -/
def attachedBody (err : JSError) : Option JSVal :=
  match getProp err.response "body" with
  | .ok b => if truthy b then some b else none
  | .error _ => none

/-- The object the `.catch` callback serializes for an error. -/
def errorReply (err : JSError) : JSVal :=
  .obj [("success", .bool false), ("upstreamError", (attachedBody err).getD .null)]

/-! ## Fixtures -/

/-- A toy `Date.parse` knowing two ISO timestamps. -/
def fixtureDateParse (v : JSVal) : Option Int :=
  match v with
  | .str s =>
    if s = "2000-01-01T00:00:00Z" then some 946684800000
    else if s = "2100-01-01T00:00:00Z" then some 4102444800000
    else none
  | _ => none

/-- A concrete environment in which the handshake settles with `handshake`
and every later call with `signed`; the clock reads 2026-11-04. -/
def fixtureEnv (handshake signed : Except JSError Response) : Env :=
  { API_URL := "https://up", API_KEY := .str "k", API_SECRET := some "c2VjcmV0",
    base64 := fun _ => [1], inject := fun b => .ok ⟨b⟩, sign := fun _ _ => "v2.public.sig",
    sha256hex := fun _ => "ab", stringify := fun _ => "\x7b\x7d",
    dateParse := fixtureDateParse, now := 1793750400000, parseInt := fun v => v,
    qsParse := fun _ => [("id", .str "v1")],
    upstream := fun h _ => match h with
      | [] => handshake
      | _ => signed }

/-- A handshake response with `success: true` and nonce `n1`. -/
def goodHandshake : Except JSError Response :=
  .ok ⟨.obj [("success", .bool true)], [("x-nonce", "n1")]⟩

/-- A handshake response with `success: true` and no `x-nonce` header. -/
def bareHandshake : Except JSError Response :=
  .ok ⟨.obj [("success", .bool true)], []⟩

/-- An upstream answer to the signed POST with the given JSON body. -/
def answer (body : JSVal) : Except JSError Response :=
  .ok ⟨body, []⟩

/-- A voucher record with the given expiration date and used flag. -/
def voucherOf (expirationDate : String) (isUsed : Bool) : JSVal :=
  .obj [("expirationDate", .str expirationDate), ("isUsed", .bool isUsed)]

/-- A network failure as `got` raises it: no response attached. -/
def networkError : JSError :=
  { name := "RequestError", message := "connect ECONNREFUSED", response := .undefined }

/-- An HTTP failure as `got` raises it for a non-2xx status: the response, with
its parsed body, is attached. -/
def httpError (body : JSVal) : JSError :=
  { name := "HTTPError", message := "Response code 500 (Internal Server Error)",
    response := .obj [("statusCode", .num (.fin 500)), ("body", body)] }

/-- A concrete environment whose handshake succeeds with nonce `n1` and whose
signed POST is answered with the JSON body `body`. -/
def answering (body : JSVal) : Env :=
  fixtureEnv goodHandshake (answer body)

/-- The handshake exchange of a first run against `answering body`. -/
def firstHandshake (body : JSVal) : Exchange :=
  ⟨nonceCall (answering body) 0, goodHandshake⟩

/-- An envelope with the given `success` flag and voucher. -/
def envelope (success : Bool) (voucher : JSVal) : JSVal :=
  .obj [("success", .bool success), ("voucher", voucher)]

/-- The state of a freshly started process handling its first request. -/
def w0 : World :=
  { _key := none, sessions := 0, trace := [], stringified := [], console := [],
    res := ⟨200, false, [], [], false⟩ }

/-! ## Lemmas about runs -/

@[simp]
theorem js_pure_eq {α : Type} (a : α) : (Pure.pure a : JS α) = JS.pure a := rfl

@[simp]
theorem js_bind_eq {α β : Type} (m : JS α) (f : α → JS β) : (Bind.bind m f) = JS.bind m f := rfl

theorem getKey_frame (env : Env) (w : World) :
    (getKey env w).2.trace = w.trace ∧ (getKey env w).2.sessions = w.sessions ∧
    (getKey env w).2.stringified = w.stringified ∧ (getKey env w).2.console = w.console ∧
    (getKey env w).2.res = w.res ∧
    (∀ k, (getKey env w).1 = .ok k → (getKey env w).2._key = some k) := by
  unfold getKey
  split
  · simp_all
  · split
    · simp
    · split <;> simp_all

theorem get_run (env : Env) (id : JSVal) (w : World) :
    ((get env id w).2.trace = w.trace ∧ (get env id w).2.res = w.res ∧
      ∃ e, (get env id w).1 = .error e) ∨
    (∃ hout, (get env id w).2.trace = w.trace ++ [⟨nonceCall env w.sessions, hout⟩] ∧
      hout = env.upstream w.trace (nonceCall env w.sessions) ∧ handshakeOk hout = false ∧
      (get env id w).2.res = w.res ∧ ∃ e, (get env id w).1 = .error e) ∨
    (∃ key hres sout,
      env.upstream w.trace (nonceCall env w.sessions) = .ok hres ∧
      handshakeOk (.ok hres) = true ∧
      (get env id w).2.trace = w.trace ++
        [⟨nonceCall env w.sessions, .ok hres⟩,
         ⟨{ sess := w.sessions, url := env.API_URL ++ "/partner/voucher/get",
            body := .raw (bufferFrom (env.stringify (getReq env id (hres.header "x-nonce")))),
            headers := [("Content-Type", "application/json"),
              ("x-signature", signatureOf env
                (bufferFrom (env.stringify (getReq env id (hres.header "x-nonce")))) key)] },
          sout⟩] ∧
      (get env id w).2._key = some key ∧ (get env id w).2.res = w.res ∧
      (get env id w).2.stringified = w.stringified ++ [getReq env id (hres.header "x-nonce")] ∧
      (get env id w).2.console = w.console ∧
      (get env id w).1 = getTail env sout) := by
  obtain ⟨f1, f2, f3, f4, f5, f6⟩ := getKey_frame env w
  simp only [get, getNonce, js_bind_eq, js_pure_eq, JS.bind, newSession, post]
  rcases hk : getKey env w with ⟨_ | key, w1⟩
  · rw [hk] at f1 f5; simp at f1 f5; simp [f1, f5]
  · rw [hk] at f1 f2 f3 f4 f5 f6; simp at f1 f2 f3 f4 f5 f6
    simp only [f1, f2]
    right
    rcases hh : env.upstream w.trace (nonceCall env w.sessions) with e | r
    · left
      refine ⟨.error e, ?_⟩
      simp [nonceCall] at hh
      simp [nonceCall, hh, handshakeOk, f5]
    · simp only [nonceCall] at hh
      simp only [hh]
      rcases hp : getProp r.body "success" with e | s
      · left
        refine ⟨.ok r, ?_⟩
        simp [nonceCall, hh, handshakeOk, hp, f5]
      · by_cases ht : truthy s = true
        · right
          refine ⟨key, r, env.upstream (w.trace ++ [⟨nonceCall env w.sessions, .ok r⟩])
            { sess := w.sessions, url := env.API_URL ++ "/partner/voucher/get",
              body := .raw (bufferFrom (env.stringify (getReq env id (r.header "x-nonce")))),
              headers := [("Content-Type", "application/json"),
                ("x-signature", signatureOf env
                  (bufferFrom (env.stringify (getReq env id (r.header "x-nonce")))) key)] }, ?_⟩
          simp only [nonceCall, hh, handshakeOk, hp, ht, f1, f2, f3, f4, f5, f6, getReq, signatureOf,
            js_bind_eq, js_pure_eq, JS.bind, JS.pure, JS.throw, consoleError, JS.ofExcept,
            jsonStringify, Bool.not_true, if_false, Bool.false_eq_true, true_and]
          generalize env.upstream _ _ = sout
          rcases sout with e | res
          · simp [getTail]
          · simp only [getTail]
            rcases g1 : getProp res.body "voucher" with e | voucher
            · simp
            · rcases g2 : getProp res.body "success" with e | success
              · simp
              · cases h1 : truthy success
                · simp [h1]
                · rcases g3 : getProp voucher "expirationDate" with e | ed
                  · simp [h1, g3]
                  · cases h2 : (match env.dateParse ed with
                        | some t => decide (t < env.now)
                        | none => false)
                    · rcases g4 : getProp voucher "isUsed" with e | iu
                      · simp [h1, h2, g3, g4]
                      · cases h3 : truthy iu <;> simp [h1, h2, h3, g3, g4]
                    · simp [h1, h2, g3]
        · left
          refine ⟨.ok r, ?_⟩
          simp [nonceCall, hh, handshakeOk, hp, ht, f5]
theorem use_run (env : Env) (cartAmount vouchers : JSVal) (w : World) :
    ((use env cartAmount vouchers w).2.trace = w.trace ∧ (use env cartAmount vouchers w).2.res = w.res ∧
      ∃ e, (use env cartAmount vouchers w).1 = .error e) ∨
    (∃ hout, (use env cartAmount vouchers w).2.trace =
        w.trace ++ [⟨nonceCall env w.sessions, hout⟩] ∧
      hout = env.upstream w.trace (nonceCall env w.sessions) ∧ handshakeOk hout = false ∧
      (use env cartAmount vouchers w).2.res = w.res ∧ ∃ e, (use env cartAmount vouchers w).1 = .error e) ∨
    (∃ key hres sout,
      env.upstream w.trace (nonceCall env w.sessions) = .ok hres ∧
      handshakeOk (.ok hres) = true ∧
      (use env cartAmount vouchers w).2.trace = w.trace ++
        [⟨nonceCall env w.sessions, .ok hres⟩,
         ⟨{ sess := w.sessions, url := env.API_URL ++ "/partner/voucher/use",
            body := .raw (bufferFrom (env.stringify
              (useReq env cartAmount vouchers (hres.header "x-nonce")))),
            headers := [("Content-Type", "application/json"),
              ("x-signature", signatureOf env (bufferFrom (env.stringify
                (useReq env cartAmount vouchers (hres.header "x-nonce")))) key)] },
          sout⟩] ∧
      (use env cartAmount vouchers w).2._key = some key ∧ (use env cartAmount vouchers w).2.res = w.res ∧
      (use env cartAmount vouchers w).2.stringified =
        w.stringified ++ [useReq env cartAmount vouchers (hres.header "x-nonce")] ∧
      (use env cartAmount vouchers w).2.console =
        w.console ++ (useTail cartAmount vouchers sout).2 ∧
      (use env cartAmount vouchers w).1 = (useTail cartAmount vouchers sout).1) := by
  obtain ⟨f1, f2, f3, f4, f5, f6⟩ := getKey_frame env w
  simp only [use, getNonce, js_bind_eq, js_pure_eq, JS.bind, newSession, post]
  rcases hk : getKey env w with ⟨_ | key, w1⟩
  · rw [hk] at f1 f5; simp at f1 f5; simp [f1, f5]
  · rw [hk] at f1 f2 f3 f4 f5 f6; simp at f1 f2 f3 f4 f5 f6
    simp only [f1, f2]
    right
    rcases hh : env.upstream w.trace (nonceCall env w.sessions) with e | r
    · left
      refine ⟨.error e, ?_⟩
      simp [nonceCall] at hh
      simp [nonceCall, hh, handshakeOk, f5]
    · simp only [nonceCall] at hh
      simp only [hh]
      rcases hp : getProp r.body "success" with e | s
      · left
        refine ⟨.ok r, ?_⟩
        simp [nonceCall, hh, handshakeOk, hp, f5]
      · by_cases ht : truthy s = true
        · right
          refine ⟨key, r, env.upstream (w.trace ++ [⟨nonceCall env w.sessions, .ok r⟩])
            { sess := w.sessions, url := env.API_URL ++ "/partner/voucher/use",
              body := .raw (bufferFrom (env.stringify
                (useReq env cartAmount vouchers (r.header "x-nonce")))),
              headers := [("Content-Type", "application/json"),
                ("x-signature", signatureOf env (bufferFrom (env.stringify
                  (useReq env cartAmount vouchers (r.header "x-nonce")))) key)] }, ?_⟩
          simp only [nonceCall, hh, handshakeOk, hp, ht, f1, f2, f3, f4, f5, f6, useReq, signatureOf,
            js_bind_eq, js_pure_eq, JS.bind, JS.pure, JS.throw, consoleError, JS.ofExcept,
            JS.tryCatch, post, jsonStringify, Bool.not_true, if_false, Bool.false_eq_true,
            true_and]
          generalize env.upstream _ _ = sout
          rcases sout with e | res
          · simp only [useTail, useCatch]
            rcases g0 : getProp e.response "body" with e2 | body <;> simp [g0]
          · simp only [useTail]
            rcases g2 : getProp res.body "success" with e | success
            · simp only [useCatch]
              rcases g0 : getProp e.response "body" with e2 | body <;> simp [g0, g2]
            · cases h1 : truthy success <;> simp [h1, g2]
        · left
          refine ⟨.ok r, ?_⟩
          simp [nonceCall, hh, handshakeOk, hp, ht, f5]

theorem get_reached (env : Env) (id : JSVal) (w : World) (hs sp : Exchange)
    (h : (get env id w).2.trace = w.trace ++ [hs, sp]) :
    ∃ key hres,
      hs = ⟨nonceCall env w.sessions, .ok hres⟩ ∧ handshakeOk (.ok hres) = true ∧
      sp.call =
        { sess := w.sessions, url := env.API_URL ++ "/partner/voucher/get",
          body := .raw (bufferFrom (env.stringify (getReq env id (hres.header "x-nonce")))),
          headers := [("Content-Type", "application/json"),
            ("x-signature", signatureOf env
              (bufferFrom (env.stringify (getReq env id (hres.header "x-nonce")))) key)] } ∧
      (get env id w).2._key = some key ∧
      (get env id w).2.stringified = w.stringified ++ [getReq env id (hres.header "x-nonce")] ∧
      (get env id w).1 = getTail env sp.outcome := by
  rcases get_run env id w with ⟨h1, _⟩ | ⟨hout, h1, _⟩ | ⟨key, hres, sout, _, h2, h3, h4, _, h5, _, h6⟩
  · rw [h1] at h; simp at h
  · rw [h1] at h; simp at h
  · rw [h3] at h
    simp at h
    obtain ⟨rfl, rfl⟩ := h
    exact ⟨key, hres, rfl, h2, rfl, h4, h5, h6⟩

theorem use_reached (env : Env) (cartAmount vouchers : JSVal) (w : World) (hs sp : Exchange)
    (h : (use env cartAmount vouchers w).2.trace = w.trace ++ [hs, sp]) :
    ∃ key hres,
      hs = ⟨nonceCall env w.sessions, .ok hres⟩ ∧ handshakeOk (.ok hres) = true ∧
      sp.call =
        { sess := w.sessions, url := env.API_URL ++ "/partner/voucher/use",
          body := .raw (bufferFrom (env.stringify
            (useReq env cartAmount vouchers (hres.header "x-nonce")))),
          headers := [("Content-Type", "application/json"),
            ("x-signature", signatureOf env (bufferFrom (env.stringify
              (useReq env cartAmount vouchers (hres.header "x-nonce")))) key)] } ∧
      (use env cartAmount vouchers w).2._key = some key ∧
      (use env cartAmount vouchers w).2.stringified =
        w.stringified ++ [useReq env cartAmount vouchers (hres.header "x-nonce")] ∧
      (use env cartAmount vouchers w).2.console =
        w.console ++ (useTail cartAmount vouchers sp.outcome).2 ∧
      (use env cartAmount vouchers w).1 = (useTail cartAmount vouchers sp.outcome).1 := by
  rcases use_run env cartAmount vouchers w with
    ⟨h1, _⟩ | ⟨hout, h1, _⟩ | ⟨key, hres, sout, _, h2, h3, h4, _, h5, h6, h7⟩
  · rw [h1] at h; simp at h
  · rw [h1] at h; simp at h
  · rw [h3] at h
    simp at h
    obtain ⟨rfl, rfl⟩ := h
    exact ⟨key, hres, rfl, h2, rfl, h4, h5, h6, h7⟩

theorem getProp_ok_of_ok (v : JSVal) (k k2 : String) (a : JSVal) (h : getProp v k = .ok a) :
    ∃ b, getProp v k2 = .ok b := by
  cases v <;> simp_all [getProp]

theorem getProp_ne_undefined (v : JSVal) (k : String) (a : JSVal) (h : getProp v k = .ok a) :
    v ≠ .undefined := by
  rintro rfl
  simp [getProp] at h

/-! ## The signed request (C1) -/

/-- C1: whenever a run of `get` or of `use` reaches the signed POST, the request
object was serialized exactly once, the body sent is the byte sequence `B` of
that one serialization, and the `x-signature` header is the signing primitive
applied, with the cached key, to the UTF-8 bytes of the lowercase-hex SHA-256
digest of `B`. -/
theorem signed_post_signs_transmitted_bytes (env : Env) (id cartAmount vouchers : JSVal)
    (w : World) :
    (∀ hs sp, (get env id w).2.trace = w.trace ++ [hs, sp] →
      ∃ nonce key B,
        (get env id w).2.stringified =
          w.stringified ++ [.obj [("id", id), ("apiKey", env.API_KEY), ("nonce", nonce)]] ∧
        B = bufferFrom (env.stringify
          (.obj [("id", id), ("apiKey", env.API_KEY), ("nonce", nonce)])) ∧
        sp.call.body = .raw B ∧
        (get env id w).2._key = some key ∧
        sp.call.headers.lookup "x-signature" =
          some (env.sign (bufferFrom (env.sha256hex B)) key)) ∧
    (∀ hs sp, (use env cartAmount vouchers w).2.trace = w.trace ++ [hs, sp] →
      ∃ nonce key B,
        (use env cartAmount vouchers w).2.stringified =
          w.stringified ++ [.obj [("cartAmount", env.parseInt cartAmount),
            ("vouchers", vouchers), ("apiKey", env.API_KEY), ("nonce", nonce)]] ∧
        B = bufferFrom (env.stringify (.obj [("cartAmount", env.parseInt cartAmount),
            ("vouchers", vouchers), ("apiKey", env.API_KEY), ("nonce", nonce)])) ∧
        sp.call.body = .raw B ∧
        (use env cartAmount vouchers w).2._key = some key ∧
        sp.call.headers.lookup "x-signature" =
          some (env.sign (bufferFrom (env.sha256hex B)) key)) := by
  constructor
  · intro hs sp h
    obtain ⟨key, hres, _, _, hc, hk, hst, _⟩ := get_reached env id w hs sp h
    refine ⟨hres.header "x-nonce", key, _, hst, rfl, ?_, hk, ?_⟩
    · rw [hc]; rfl
    · rw [hc]; rfl
  · intro hs sp h
    obtain ⟨key, hres, _, _, hc, hk, hst, _⟩ := use_reached env cartAmount vouchers w hs sp h
    refine ⟨hres.header "x-nonce", key, _, hst, rfl, ?_, hk, ?_⟩
    · rw [hc]; rfl
    · rw [hc]; rfl

/-! ## Validation order in `get` (C2, C3, C4, C10) -/

/-- C2: `get` reports the first failing check, in the order success flag,
expiration, used.  When the signed POST is answered with an envelope whose
`success` flag is false (or otherwise falsy), `get` returns the failure
carrying that envelope and no reason, whatever the voucher holds; when the
flag is true (truthy) and `voucher.expirationDate` parses to a time strictly
before the current time, `get` returns the failure with reason `expired`,
whatever `isUsed` is. -/
theorem get_reports_first_failing_check (env : Env) (id : JSVal) (w : World)
    (hs sp : Exchange) (res : Response) (success : JSVal)
    (htrace : (get env id w).2.trace = w.trace ++ [hs, sp])
    (hout : sp.outcome = .ok res)
    (hsucc : getProp res.body "success" = .ok success) :
    (truthy success = false →
      (get env id w).1 =
        .ok (.obj [("success", .bool false), ("upstreamResponse", res.body)])) ∧
    (∀ voucher expirationDate t, truthy success = true →
      getProp res.body "voucher" = .ok voucher →
      getProp voucher "expirationDate" = .ok expirationDate →
      env.dateParse expirationDate = some t → t < env.now →
      (get env id w).1 = .ok (.obj [("success", .bool false), ("reason", .str "expired")])) := by
  obtain ⟨key, hres, _, _, _, _, _, hr⟩ := get_reached env id w hs sp htrace
  rw [hr, hout]
  constructor
  · intro hf
    obtain ⟨v, hv⟩ := getProp_ok_of_ok res.body "success" "voucher" success hsucc
    simp [getTail, hv, hsucc, hf]
  · intro voucher expirationDate t ht hv he hp hlt
    simp [getTail, hv, hsucc, ht, he, hp, hlt]

/-- C3: when the signed POST is answered with an envelope whose `success` flag
is true, whose voucher has `isUsed` false and an `expirationDate` that is not
strictly before the current time, `get` returns `success: true` together with
exactly the voucher of the envelope. -/
theorem get_returns_valid_voucher_unchanged (env : Env) (id : JSVal) (w : World)
    (hs sp : Exchange) (res : Response) (success voucher expirationDate isUsed : JSVal)
    (t : Int)
    (htrace : (get env id w).2.trace = w.trace ++ [hs, sp])
    (hout : sp.outcome = .ok res)
    (hsucc : getProp res.body "success" = .ok success) (htrue : truthy success = true)
    (hv : getProp res.body "voucher" = .ok voucher)
    (hexp : getProp voucher "expirationDate" = .ok expirationDate)
    (hparse : env.dateParse expirationDate = some t) (hfuture : env.now ≤ t)
    (hused : getProp voucher "isUsed" = .ok isUsed) (hunused : truthy isUsed = false) :
    (get env id w).1 = .ok (.obj [("success", .bool true), ("voucher", voucher)]) := by
  obtain ⟨key, hres, _, _, _, _, _, hr⟩ := get_reached env id w hs sp htrace
  rw [hr, hout]
  simp [getTail, hv, hsucc, htrue, hexp, hparse, hused, hunused, not_lt.mpr hfuture]

/-- C4: when the signed POST is answered with an envelope whose `success` flag
is true, whose voucher has `isUsed` true and an `expirationDate` that is not
strictly before the current time, `get` returns exactly
`success: false, reason: "used"`: no voucher and no upstream envelope. -/
theorem get_reports_used_voucher (env : Env) (id : JSVal) (w : World)
    (hs sp : Exchange) (res : Response) (success voucher expirationDate isUsed : JSVal)
    (t : Int)
    (htrace : (get env id w).2.trace = w.trace ++ [hs, sp])
    (hout : sp.outcome = .ok res)
    (hsucc : getProp res.body "success" = .ok success) (htrue : truthy success = true)
    (hv : getProp res.body "voucher" = .ok voucher)
    (hexp : getProp voucher "expirationDate" = .ok expirationDate)
    (hparse : env.dateParse expirationDate = some t) (hfuture : env.now ≤ t)
    (hused : getProp voucher "isUsed" = .ok isUsed) (hisUsed : truthy isUsed = true) :
    (get env id w).1 = .ok (.obj [("success", .bool false), ("reason", .str "used")]) := by
  obtain ⟨key, hres, _, _, _, _, _, hr⟩ := get_reached env id w hs sp htrace
  rw [hr, hout]
  simp [getTail, hv, hsucc, htrue, hexp, hparse, hused, hisUsed, not_lt.mpr hfuture]

/-- C10: `get` needs an envelope with `success` true to carry a voucher.  When
the signed POST is answered with an envelope that has no `voucher` field, a
true `success` flag makes `get` raise the `TypeError` of reading
`expirationDate` from `undefined`, while a false flag makes it return the
failure carrying the envelope. -/
theorem get_raises_on_missing_voucher (env : Env) (id : JSVal) (w : World)
    (hs sp : Exchange) (res : Response) (success : JSVal)
    (htrace : (get env id w).2.trace = w.trace ++ [hs, sp])
    (hout : sp.outcome = .ok res)
    (hsucc : getProp res.body "success" = .ok success)
    (hmissing : getProp res.body "voucher" = .ok .undefined) :
    (truthy success = true → (get env id w).1 = .error (typeError "expirationDate")) ∧
    (truthy success = false →
      (get env id w).1 =
        .ok (.obj [("success", .bool false), ("upstreamResponse", res.body)])) := by
  obtain ⟨key, hres, _, _, _, _, _, hr⟩ := get_reached env id w hs sp htrace
  rw [hr, hout]
  constructor
  · intro ht
    have hu : getProp .undefined "expirationDate" = .error (typeError "expirationDate") := rfl
    simp [getTail, hmissing, hsucc, ht, hu]
  · intro hf
    simp [getTail, hmissing, hsucc, hf]

/-! ## Outcomes of `use` (C5, C6) -/

/-- C6: for every `cartAmount` and `vouchers`, when the voucher-use POST is
answered at transport level, `use` raises nothing: an envelope whose `success`
flag is false gives the failure carrying exactly that envelope, and an envelope
whose flag is true gives `success: true` with no payload. -/
theorem use_interprets_envelope (env : Env) (cartAmount vouchers : JSVal) (w : World)
    (hs sp : Exchange) (res : Response) (success : JSVal)
    (htrace : (use env cartAmount vouchers w).2.trace = w.trace ++ [hs, sp])
    (hout : sp.outcome = .ok res)
    (hsucc : getProp res.body "success" = .ok success) :
    (truthy success = false →
      (use env cartAmount vouchers w).1 =
        .ok (.obj [("success", .bool false), ("upstreamResponse", res.body)])) ∧
    (truthy success = true →
      (use env cartAmount vouchers w).1 = .ok (.obj [("success", .bool true)])) := by
  obtain ⟨key, hres, _, _, _, _, _, _, hr⟩ := use_reached env cartAmount vouchers w hs sp htrace
  rw [hr, hout]
  constructor
  · intro hf
    simp [useTail, hsucc, hf]
  · intro ht
    simp [useTail, hsucc, ht]

/-! ## Nonce discipline (C7) -/

theorem url_append_ne (a b c : String) (h : b.data ≠ c.data) : a ++ b ≠ a ++ c := by
  intro heq
  apply h
  have h2 : (a ++ b).data = (a ++ c).data := by rw [heq]
  simpa [String.data_append] using h2

theorem built_from_header_read (env : Env) (reqOf : JSVal → JSVal) (hres : Response)
    (sp : Exchange)
    (h : sp.call.body = .raw (bufferFrom (env.stringify (reqOf (hres.header "x-nonce"))))) :
    BuiltFromHeaderRead env reqOf hres sp := by
  constructor
  · intro n hn
    rw [h]
    simp [Response.header, hn]
  · intro hn
    rw [h]
    simp [Response.header, hn]

theorem discipline_of_shape (env : Env) (reqOf : JSVal → JSVal) (result : Except JSError JSVal)
    (new : List Exchange) (n : Nat) (path : String)
    (hpath : path.data ≠ "/partner/nonce".data)
    (h : (new = [] ∧ ∃ e, result = .error e) ∨
      (∃ hout, new = [⟨nonceCall env n, hout⟩] ∧ handshakeOk hout = false ∧
        ∃ e, result = .error e) ∨
      (∃ hres key sout, handshakeOk (.ok hres) = true ∧
        new = [⟨nonceCall env n, .ok hres⟩,
          ⟨{ sess := n, url := env.API_URL ++ path,
             body := .raw (bufferFrom (env.stringify (reqOf (hres.header "x-nonce")))),
             headers := [("Content-Type", "application/json"),
               ("x-signature", signatureOf env
                 (bufferFrom (env.stringify (reqOf (hres.header "x-nonce")))) key)] },
           sout⟩])) :
    NonceDiscipline env reqOf result new := by
  rcases h with ⟨rfl, he⟩ | ⟨hout, rfl, hf, he⟩ | ⟨hres, key, sout, hok, rfl⟩
  · refine ⟨?_, ?_, ?_⟩
    · intro pre sp post h
      simp at h
    · intro hs hres hm
      simp at hm
    · intro hs hm
      simp at hm
  · refine ⟨?_, ?_, ?_⟩
    · intro pre sp post h hsg
      rcases pre with _ | ⟨b, pre⟩
      · simp at h
        obtain ⟨rfl, _⟩ := h
        simp [Exchange.isSigned, nonceCall] at hsg
      · simp at h
    · intro hs hres hm _ ho hk
      simp at hm
      subst hm
      simp at ho
      subst ho
      rw [hk] at hf
      simp at hf
    · intro hs hm _ _
      simp at hm
      subst hm
      exact ⟨he, rfl⟩
  · refine ⟨?_, ?_, ?_⟩
    · intro pre sp post h hsg
      rcases pre with _ | ⟨b, pre⟩
      · simp at h
        obtain ⟨rfl, _⟩ := h
        simp [Exchange.isSigned, nonceCall] at hsg
      · rcases pre with _ | ⟨c, pre⟩
        · simp at h
          obtain ⟨rfl, rfl, _⟩ := h
          exact ⟨⟨nonceCall env n, .ok hres⟩, hres, by simp,
            by simp [Exchange.isHandshake, nonceCall], rfl, rfl, hok,
            built_from_header_read env reqOf hres _ rfl⟩
        · simp at h
    · intro hs hres2 hm hh ho _
      simp at hm
      rcases hm with rfl | rfl
      · simp at ho
        subst ho
        exact ⟨Exchange.mk
          { sess := n, url := env.API_URL ++ path,
            body := .raw (bufferFrom (env.stringify (reqOf (hres.header "x-nonce")))),
            headers := [("Content-Type", "application/json"),
              ("x-signature", signatureOf env
                (bufferFrom (env.stringify (reqOf (hres.header "x-nonce")))) key)] }
          sout, rfl, rfl, built_from_header_read env reqOf hres _ rfl⟩
      · simp [Exchange.isHandshake] at hh
        exact absurd hh (url_append_ne _ _ _ hpath)
    · intro hs hm hh hf
      simp at hm
      rcases hm with rfl | rfl
      · simp at hf
        rw [hok] at hf
        simp at hf
      · simp [Exchange.isHandshake] at hh
        exact absurd hh (url_append_ne _ _ _ hpath)

/-- C7 as stated fails: a handshake answered with `success: true` and no
`x-nonce` header.  `getNonce` checks only the flag and returns `undefined`, so
`get("v1")` and `use(100, ["v1"])` still send their signed POST, serialized
from a request object whose `nonce` is `undefined`; no call of either run
carries a nonce taken from the handshake's `x-nonce` header. -/
theorem signed_post_sent_without_nonce :
    ((get (fixtureEnv bareHandshake (answer (.obj []))) (.str "v1") w0).2.trace.map
        Exchange.outcome = [bareHandshake, answer (.obj [])] ∧
      (get (fixtureEnv bareHandshake (answer (.obj []))) (.str "v1") w0).2.trace.map
        Exchange.isSigned = [false, true] ∧
      (get (fixtureEnv bareHandshake (answer (.obj []))) (.str "v1") w0).2.stringified =
        [.obj [("id", .str "v1"), ("apiKey", .str "k"), ("nonce", .undefined)]] ∧
      ∀ sp ∈ (get (fixtureEnv bareHandshake (answer (.obj []))) (.str "v1") w0).2.trace,
        ¬ CarriesHeaderNonce (fixtureEnv bareHandshake (answer (.obj [])))
          (getReq (fixtureEnv bareHandshake (answer (.obj []))) (.str "v1"))
          ⟨.obj [("success", .bool true)], []⟩ sp) ∧
    ((use (fixtureEnv bareHandshake (answer (.obj []))) (.num (.fin 100)) (.arr [.str "v1"])
        w0).2.trace.map Exchange.outcome = [bareHandshake, answer (.obj [])] ∧
      (use (fixtureEnv bareHandshake (answer (.obj []))) (.num (.fin 100)) (.arr [.str "v1"])
        w0).2.trace.map Exchange.isSigned = [false, true] ∧
      (use (fixtureEnv bareHandshake (answer (.obj []))) (.num (.fin 100)) (.arr [.str "v1"])
        w0).2.stringified =
        [.obj [("cartAmount", .num (.fin 100)), ("vouchers", .arr [.str "v1"]),
          ("apiKey", .str "k"), ("nonce", .undefined)]] ∧
      ∀ sp ∈ (use (fixtureEnv bareHandshake (answer (.obj []))) (.num (.fin 100))
          (.arr [.str "v1"]) w0).2.trace,
        ¬ CarriesHeaderNonce (fixtureEnv bareHandshake (answer (.obj [])))
          (useReq (fixtureEnv bareHandshake (answer (.obj []))) (.num (.fin 100))
            (.arr [.str "v1"]))
          ⟨.obj [("success", .bool true)], []⟩ sp) :=
  ⟨⟨rfl, rfl, rfl, fun _ _ ⟨_, h, _⟩ => by simp at h⟩,
   ⟨rfl, rfl, rfl, fun _ _ ⟨_, h, _⟩ => by simp at h⟩⟩

/-- C7, amended: over the upstream calls made by one invocation of `get` or of
`use`, every signed POST is preceded by a handshake POST on the same session
whose envelope had `success` true, and its body is the serialization of the
request object built from what reading that handshake's `x-nonce` header gives:
the header's nonce when the header is present, `undefined` when it is absent;
each handshake whose envelope had `success` true is followed by exactly one
signed POST, so a nonce present in the header is carried by exactly one signed
POST; and when the handshake envelope's `success` flag is false the invocation
raises after that single call, with no signed POST and no retry. -/
theorem signed_post_follows_one_handshake (env : Env) (id cartAmount vouchers : JSVal)
    (w : World) :
    (∃ new, (get env id w).2.trace = w.trace ++ new ∧
      NonceDiscipline env (getReq env id) (get env id w).1 new) ∧
    (∃ new, (use env cartAmount vouchers w).2.trace = w.trace ++ new ∧
      NonceDiscipline env (useReq env cartAmount vouchers)
        (use env cartAmount vouchers w).1 new) := by
  constructor
  · rcases get_run env id w with
      ⟨h1, _, he⟩ | ⟨hout, h1, _, hf, _, he⟩ | ⟨key, hres, sout, _, h2, h3, _⟩
    · exact ⟨[], by simpa using h1,
        discipline_of_shape env _ _ _ w.sessions "/partner/voucher/get" (by decide)
          (Or.inl ⟨rfl, he⟩)⟩
    · exact ⟨_, h1,
        discipline_of_shape env _ _ _ w.sessions "/partner/voucher/get" (by decide)
          (Or.inr (Or.inl ⟨hout, rfl, hf, he⟩))⟩
    · exact ⟨_, h3,
        discipline_of_shape env _ _ _ w.sessions "/partner/voucher/get" (by decide)
          (Or.inr (Or.inr ⟨hres, key, sout, h2, rfl⟩))⟩
  · rcases use_run env cartAmount vouchers w with
      ⟨h1, _, he⟩ | ⟨hout, h1, _, hf, _, he⟩ | ⟨key, hres, sout, _, h2, h3, _⟩
    · exact ⟨[], by simpa using h1,
        discipline_of_shape env _ _ _ w.sessions "/partner/voucher/use" (by decide)
          (Or.inl ⟨rfl, he⟩)⟩
    · exact ⟨_, h1,
        discipline_of_shape env _ _ _ w.sessions "/partner/voucher/use" (by decide)
          (Or.inr (Or.inl ⟨hout, rfl, hf, he⟩))⟩
    · exact ⟨_, h3,
        discipline_of_shape env _ _ _ w.sessions "/partner/voucher/use" (by decide)
          (Or.inr (Or.inr ⟨hres, key, sout, h2, rfl⟩))⟩

/-- C5 (defect): `use(100, ["v1","v2"])` against a transport that fails the
voucher-use POST with a network error, which has no response attached.  The
`catch` block reads `res.body` from the missing response, so `use` raises the
`TypeError` of that read instead of the network error, and logs nothing. -/
theorem use_replaces_network_error :
    (use (fixtureEnv goodHandshake (.error networkError)) (.num (.fin 100))
        (.arr [.str "v1", .str "v2"]) w0).1 = .error (typeError "body") ∧
    (use (fixtureEnv goodHandshake (.error networkError)) (.num (.fin 100))
        (.arr [.str "v1", .str "v2"]) w0).2.console = [] ∧
    (use (fixtureEnv goodHandshake (.error networkError)) (.num (.fin 100))
        (.arr [.str "v1", .str "v2"]) w0).2.trace.map Exchange.outcome =
      [goodHandshake, .error networkError] ∧
    (typeError "body").name ≠ networkError.name :=
  ⟨rfl, rfl, rfl, by decide⟩

/-- The part of C5 that holds: a transport failure of the voucher-use POST that
has a response attached (a non-2xx answer) is logged, with the inputs and the
upstream body, and the same error is raised again. -/
theorem use_rethrows_error_with_response (env : Env) (cartAmount vouchers : JSVal) (w : World)
    (hs sp : Exchange) (err : JSError) (body : JSVal)
    (htrace : (use env cartAmount vouchers w).2.trace = w.trace ++ [hs, sp])
    (hout : sp.outcome = .error err)
    (hbody : getProp err.response "body" = .ok body) :
    (use env cartAmount vouchers w).1 = .error err ∧
    (use env cartAmount vouchers w).2.console = w.console ++
      [.error (.obj [("cartAmount", cartAmount), ("vouchers", vouchers), ("result", body)])] := by
  obtain ⟨key, hres, _, _, _, _, _, hc, hr⟩ := use_reached env cartAmount vouchers w hs sp htrace
  rw [hr, hc, hout]
  simp [useTail, useCatch, hbody]

/-- A concrete run for `use_rethrows_error_with_response`: the voucher-use POST
fails with an HTTP error carrying the upstream body `error: "boom"`. -/
theorem use_rethrows_error_with_response_example :
    (use (fixtureEnv goodHandshake (.error (httpError (.obj [("error", .str "boom")]))))
        (.num (.fin 100)) (.arr [.str "v1"]) w0).1 =
      .error (httpError (.obj [("error", .str "boom")])) ∧
    (use (fixtureEnv goodHandshake (.error (httpError (.obj [("error", .str "boom")]))))
        (.num (.fin 100)) (.arr [.str "v1"]) w0).2.console = w0.console ++
      [.error (.obj [("cartAmount", .num (.fin 100)), ("vouchers", .arr [.str "v1"]),
        ("result", .obj [("error", .str "boom")])])] :=
  use_rethrows_error_with_response
    (fixtureEnv goodHandshake (.error (httpError (.obj [("error", .str "boom")]))))
    (.num (.fin 100)) (.arr [.str "v1"]) w0
    ⟨nonceCall (fixtureEnv goodHandshake (.error (httpError (.obj [("error", .str "boom")])))) 0,
      goodHandshake⟩ _ (httpError (.obj [("error", .str "boom")])) (.obj [("error", .str "boom")])
    rfl rfl rfl

/-! ## Shape of the results (C8) -/

theorem getTail_ok (env : Env) (out : Except JSError Response) (r : JSVal)
    (h : getTail env out = .ok r) :
    (∃ b, b ≠ .undefined ∧ r = .obj [("success", .bool false), ("upstreamResponse", b)]) ∨
    (∃ reason, r = .obj [("success", .bool false), ("reason", .str reason)]) ∨
    (∃ v, v ≠ .undefined ∧ r = .obj [("success", .bool true), ("voucher", v)]) := by
  rcases out with e | res
  · simp [getTail] at h
  · simp only [getTail] at h
    rcases g1 : getProp res.body "voucher" with e | voucher
    · simp [g1] at h
    · rcases g2 : getProp res.body "success" with e | success
      · simp [g1, g2] at h
      · cases h1 : truthy success
        · simp [g1, g2, h1] at h
          exact Or.inl ⟨res.body, getProp_ne_undefined _ _ _ g1, h.symm⟩
        · rcases g3 : getProp voucher "expirationDate" with e | ed
          · simp [g1, g2, h1, g3] at h
          · cases h2 : (match env.dateParse ed with
                | some t => decide (t < env.now)
                | none => false)
            · rcases g4 : getProp voucher "isUsed" with e | iu
              · simp [g1, g2, h1, g3, h2, g4] at h
              · cases h3 : truthy iu
                · simp [g1, g2, h1, g3, h2, g4, h3] at h
                  exact Or.inr (Or.inr ⟨voucher, getProp_ne_undefined _ _ _ g3, h.symm⟩)
                · simp [g1, g2, h1, g3, h2, g4, h3] at h
                  exact Or.inr (Or.inl ⟨"used", h.symm⟩)
            · simp [g1, g2, h1, g3, h2] at h
              exact Or.inr (Or.inl ⟨"expired", h.symm⟩)

theorem useTail_ok (cartAmount vouchers : JSVal) (out : Except JSError Response) (r : JSVal)
    (h : (useTail cartAmount vouchers out).1 = .ok r) :
    (∃ b, b ≠ .undefined ∧ r = .obj [("success", .bool false), ("upstreamResponse", b)]) ∨
    r = .obj [("success", .bool true)] := by
  rcases out with e | res
  · simp only [useTail, useCatch] at h
    rcases g0 : getProp e.response "body" with e2 | body <;> simp [g0] at h
  · simp only [useTail] at h
    rcases g2 : getProp res.body "success" with e | success
    · simp only [g2, useCatch] at h
      rcases g0 : getProp e.response "body" with e2 | body <;> simp [g0] at h
    · cases h1 : truthy success
      · simp [g2, h1] at h
        exact Or.inl ⟨res.body, getProp_ne_undefined _ _ _ g2, h.symm⟩
      · simp [g2, h1] at h
        exact Or.inr h.symm

theorem populated_obj (fs : List (String × JSVal)) (k : String) :
    populated (.obj fs) k = true ↔ field fs k ≠ .undefined := by
  simp only [populated, getProp]
  cases field fs k <;> simp

theorem populatedCount_envelope (b : JSVal) (hb : b ≠ .undefined) :
    populatedCount (.obj [("success", .bool false), ("upstreamResponse", b)]) = 1 := by
  have h1 : populated (.obj [("success", .bool false), ("upstreamResponse", b)]) "voucher"
      = false := rfl
  have h2 : populated (.obj [("success", .bool false), ("upstreamResponse", b)]) "reason"
      = false := rfl
  have h3 : populated (.obj [("success", .bool false), ("upstreamResponse", b)])
      "upstreamResponse" = true := by
    rw [populated_obj]
    exact hb
  simp [populatedCount, List.filter, h1, h2, h3]

theorem populatedCount_reason (reason : String) :
    populatedCount (.obj [("success", .bool false), ("reason", .str reason)]) = 1 := rfl

theorem populatedCount_voucher (v : JSVal) (hv : v ≠ .undefined) :
    populatedCount (.obj [("success", .bool true), ("voucher", v)]) = 1 := by
  have h1 : populated (.obj [("success", .bool true), ("voucher", v)]) "voucher" = true := by
    rw [populated_obj]
    exact hv
  have h2 : populated (.obj [("success", .bool true), ("voucher", v)]) "reason" = false := rfl
  have h3 : populated (.obj [("success", .bool true), ("voucher", v)]) "upstreamResponse"
      = false := rfl
  simp [populatedCount, List.filter, h1, h2, h3]

/-- C8 as stated fails: `use(100, ["v1","v2"])` against an upstream that
accepts the redemption returns `success: true` alone, a result with none of
the three fields populated. -/
theorem use_success_populates_no_field :
    (use (fixtureEnv goodHandshake (answer (.obj [("success", .bool true)]))) (.num (.fin 100))
        (.arr [.str "v1", .str "v2"]) w0).1 = .ok (.obj [("success", .bool true)]) ∧
    populatedCount (.obj [("success", .bool true)]) = 0 ∧
    ¬ populatedCount (.obj [("success", .bool true)]) = 1 :=
  ⟨rfl, rfl, by decide⟩

/-- C8, amended: every result returned by `get` has exactly one of the three
fields `voucher`, `reason` and `upstreamResponse` populated; a result returned
by `use` is either the failure carrying the upstream envelope, with exactly that
one field populated, or `success: true` alone, with none of them populated. -/
theorem result_populates_at_most_one_field (env : Env) (id cartAmount vouchers : JSVal)
    (w : World) :
    (∀ r, (get env id w).1 = .ok r → populatedCount r = 1) ∧
    (∀ r, (use env cartAmount vouchers w).1 = .ok r →
      (populatedCount r = 1 ∧
        ∃ b, r = .obj [("success", .bool false), ("upstreamResponse", b)]) ∨
      (populatedCount r = 0 ∧ r = .obj [("success", .bool true)])) := by
  constructor
  · intro r hr
    rcases get_run env id w with
      ⟨_, _, e, he⟩ | ⟨_, _, _, _, _, e, he⟩ | ⟨_, _, sout, _, _, _, _, _, _, _, ht⟩
    · rw [he] at hr; simp at hr
    · rw [he] at hr; simp at hr
    · rw [ht] at hr
      rcases getTail_ok env sout r hr with ⟨b, hb, rfl⟩ | ⟨reason, rfl⟩ | ⟨v, hv, rfl⟩
      · exact populatedCount_envelope b hb
      · exact populatedCount_reason reason
      · exact populatedCount_voucher v hv
  · intro r hr
    rcases use_run env cartAmount vouchers w with
      ⟨_, _, e, he⟩ | ⟨_, _, _, _, _, e, he⟩ | ⟨_, _, sout, _, _, _, _, _, _, _, ht⟩
    · rw [he] at hr; simp at hr
    · rw [he] at hr; simp at hr
    · rw [ht] at hr
      rcases useTail_ok cartAmount vouchers sout r hr with ⟨b, hb, rfl⟩ | rfl
      · exact Or.inl ⟨populatedCount_envelope b hb, b, rfl⟩
      · exact Or.inr ⟨rfl, rfl⟩

/-! ## The error reply of the request listener (C9) -/

theorem get_res (env : Env) (id : JSVal) (w : World) : (get env id w).2.res = w.res := by
  rcases get_run env id w with
    ⟨_, h, _⟩ | ⟨_, _, _, _, h, _⟩ | ⟨_, _, _, _, _, _, _, h, _⟩ <;> exact h

theorem use_res (env : Env) (cartAmount vouchers : JSVal) (w : World) :
    (use env cartAmount vouchers w).2.res = w.res := by
  rcases use_run env cartAmount vouchers w with
    ⟨_, h, _⟩ | ⟨_, _, _, _, h, _⟩ | ⟨_, _, _, _, _, _, _, h, _⟩ <;> exact h

theorem truthy_getProp (v : JSVal) (k : String) (h : truthy v = true) :
    ∃ b, getProp v k = .ok b := by
  cases v <;> simp_all [getProp, truthy]

theorem truthy_obj (fs : List (String × JSVal)) : truthy (.obj fs) = true := rfl

theorem attachedBody_of_falsy (err : JSError) (h : truthy err.response = false) :
    attachedBody err = none := by
  unfold attachedBody
  cases hr : err.response <;> simp_all [getProp, truthy]

theorem attachedBody_of_body (err : JSError) (b : JSVal)
    (h : getProp err.response "body" = .ok b) :
    (attachedBody err).getD .null = if truthy b = true then b else .null := by
  unfold attachedBody
  rw [h]
  cases hb : truthy b <;> simp [hb]

theorem onError_run (env : Env) (err : JSError) (w : World) (h : w.res.ended = false) :
    (onError env err w).1 = .ok () ∧
    (onError env err w).2.stringified = w.stringified ++ [errorReply err] ∧
    (onError env err w).2.res.written = w.res.written ++ [env.stringify (errorReply err)] ∧
    (onError env err w).2.res.statusCode =
      (if w.res.headersSent then w.res.statusCode else 500) ∧
    (onError env err w).2.res.ended = true := by
  cases ht : truthy err.response
  · have ha := attachedBody_of_falsy err ht
    cases hh : w.res.headersSent <;>
      simp [onError, JSError.toJS, truthy_obj, ht, hh, h, resEnd, errorReply, ha, jsonStringify,
        writeHeader]
  · obtain ⟨b, hb⟩ := truthy_getProp err.response "body" ht
    have ha := attachedBody_of_body err b hb
    cases hh : w.res.headersSent <;>
      simp [onError, JSError.toJS, truthy_obj, ht, hh, h, resEnd, errorReply, ha, hb,
        jsonStringify, writeHeader]

theorem route_tail_ok (env : Env) (result : JSVal) (w : World) (h : w.res.ended = false) :
    ((do
      if !(← headersSent) then
        setHeader "Content-Type" "application/json"
        writeHeader 200
      resWrite (← jsonStringify env result)
      resEnd none : JS Unit) w).1 = .ok () := by
  cases hh : w.res.headersSent <;>
    simp [hh, h, setHeader, writeHeader, resWrite, resEnd, jsonStringify]

theorem route_head (env : Env) (url : String) (w : World) :
    (∀ e, ((if (splitUrl url).1 = "/smarketoo/voucher/get" then
        get env (field (env.qsParse (splitUrl url).2) "id")
      else if (splitUrl url).1 = "/smarketoo/voucher/use" then
        use env (env.parseInt (field (env.qsParse (splitUrl url).2) "cartAmount"))
          (toArray (field (env.qsParse (splitUrl url).2) "vouchers[]"))
      else do
        writeHeader 404
        pure JSVal.null : JS JSVal) w).1 = .error e →
      ((if (splitUrl url).1 = "/smarketoo/voucher/get" then
        get env (field (env.qsParse (splitUrl url).2) "id")
      else if (splitUrl url).1 = "/smarketoo/voucher/use" then
        use env (env.parseInt (field (env.qsParse (splitUrl url).2) "cartAmount"))
          (toArray (field (env.qsParse (splitUrl url).2) "vouchers[]"))
      else do
        writeHeader 404
        pure JSVal.null : JS JSVal) w).2.res = w.res) ∧
    ((if (splitUrl url).1 = "/smarketoo/voucher/get" then
        get env (field (env.qsParse (splitUrl url).2) "id")
      else if (splitUrl url).1 = "/smarketoo/voucher/use" then
        use env (env.parseInt (field (env.qsParse (splitUrl url).2) "cartAmount"))
          (toArray (field (env.qsParse (splitUrl url).2) "vouchers[]"))
      else do
        writeHeader 404
        pure JSVal.null : JS JSVal) w).2.res.ended = w.res.ended := by
  by_cases h1 : (splitUrl url).1 = "/smarketoo/voucher/get"
  · simp [h1, get_res]
  · by_cases h2 : (splitUrl url).1 = "/smarketoo/voucher/use"
    · simp [h1, h2, use_res]
    · cases hh : w.res.headersSent <;> simp [h1, h2, writeHeader, hh]

theorem route_raise (env : Env) (url : String) (w : World) (err : JSError)
    (hended : w.res.ended = false) (h : (route env url w).1 = .error err) :
    (route env url w).2.res = w.res := by
  have key : route env url w =
      JS.bind
        (if (splitUrl url).1 = "/smarketoo/voucher/get" then
          get env (field (env.qsParse (splitUrl url).2) "id")
        else if (splitUrl url).1 = "/smarketoo/voucher/use" then
          use env (env.parseInt (field (env.qsParse (splitUrl url).2) "cartAmount"))
            (toArray (field (env.qsParse (splitUrl url).2) "vouchers[]"))
        else do
          writeHeader 404
          pure JSVal.null : JS JSVal)
        (fun result => (do
          if !(← headersSent) then
            setHeader "Content-Type" "application/json"
            writeHeader 200
          resWrite (← jsonStringify env result)
          resEnd none : JS Unit))
        { w with console := w.console ++ [.log (.str (splitUrl url).1)] ++
            [.log (.obj (env.qsParse (splitUrl url).2))] } := by
    unfold route
    by_cases h1 : (splitUrl url).1 = "/smarketoo/voucher/get"
    · simp only [h1, if_true]
      rfl
    · by_cases h2 : (splitUrl url).1 = "/smarketoo/voucher/use"
      · simp only [h1, h2, if_true, if_false]
        rfl
      · simp only [h1, h2, if_false]
        cases hh : w.res.headersSent <;>
          simp [writeHeader, hh]
  obtain ⟨hf, he⟩ := route_head env url
    { w with console := w.console ++ [.log (.str (splitUrl url).1)] ++
        [.log (.obj (env.qsParse (splitUrl url).2))] }
  rw [key] at h ⊢
  simp only [JS.bind] at h ⊢
  generalize (if (splitUrl url).1 = "/smarketoo/voucher/get" then
          get env (field (env.qsParse (splitUrl url).2) "id")
        else if (splitUrl url).1 = "/smarketoo/voucher/use" then
          use env (env.parseInt (field (env.qsParse (splitUrl url).2) "cartAmount"))
            (toArray (field (env.qsParse (splitUrl url).2) "vouchers[]"))
        else do
          writeHeader 404
          pure JSVal.null : JS JSVal)
      { w with console := w.console ++ [.log (.str (splitUrl url).1)] ++
        [.log (.obj (env.qsParse (splitUrl url).2))] } = x at hf he h ⊢
  rcases x with ⟨e | r, w2⟩
  · simp only at h ⊢
    simpa using hf e rfl
  · simp only at h ⊢
    have hw2 : w2.res.ended = false := by simpa [hended] using he
    have := route_tail_ok env r w2 hw2
    rw [this] at h
    simp at h

/-- C9 as stated fails: a request for `/smarketoo/voucher/get?id=v1` whose
signed POST fails with an HTTP error carrying the upstream JSON body `false`.
The error raised out of `get` has that body attached, yet the reply the
listener serializes has `upstreamError: null`, not the attached body. -/
theorem handler_drops_falsy_upstream_body :
    (route (fixtureEnv goodHandshake (.error (httpError (.bool false))))
        "/smarketoo/voucher/get?id=v1" w0).1 = .error (httpError (.bool false)) ∧
    getProp (httpError (.bool false)).response "body" = .ok (.bool false) ∧
    (handler (fixtureEnv goodHandshake (.error (httpError (.bool false))))
        "/smarketoo/voucher/get?id=v1" w0).2.stringified.getLast? =
      some (.obj [("success", .bool false), ("upstreamError", .null)]) ∧
    (handler (fixtureEnv goodHandshake (.error (httpError (.bool false))))
        "/smarketoo/voucher/get?id=v1" w0).2.res.statusCode = 500 :=
  ⟨rfl, rfl, rfl, rfl⟩

/-- C9, amended: for every error raised inside the request listener (out of
`get` or `use` in particular) and caught by it, the listener does not raise and
writes the serialization of `success: false, upstreamError: X`, where `X` is
the upstream body attached to the error whenever the error has a response
whose body is truthy, and `null` otherwise (no response, or a falsy body); the
status is 500 unless the headers were already sent, in which case it is left
as it was. -/
theorem handler_error_reply (env : Env) (url : String) (w : World) (err : JSError)
    (hended : w.res.ended = false) (hraise : (route env url w).1 = .error err) :
    ∃ X,
      (handler env url w).1 = .ok () ∧
      (handler env url w).2.stringified.getLast? =
        some (.obj [("success", .bool false), ("upstreamError", X)]) ∧
      (handler env url w).2.res.written =
        w.res.written ++ [env.stringify (.obj [("success", .bool false), ("upstreamError", X)])] ∧
      (handler env url w).2.res.statusCode =
        (if w.res.headersSent then w.res.statusCode else 500) ∧
      (∀ b, getProp err.response "body" = .ok b → truthy b = true → X = b) ∧
      ((∀ b, getProp err.response "body" = .ok b → truthy b = false) → X = .null) := by
  have hres := route_raise env url w err hended hraise
  have hend2 : (route env url w).2.res.ended = false := by rw [hres]; exact hended
  obtain ⟨o1, o2, o3, o4, _⟩ := onError_run env err (route env url w).2 hend2
  have hh : handler env url w = onError env err (route env url w).2 := by
    simp only [handler, JS.tryCatch]
    rcases hr : route env url w with ⟨e | r, w2⟩
    · rw [hr] at hraise
      simp at hraise
      subst hraise
      rfl
    · rw [hr] at hraise
      simp at hraise
  refine ⟨(attachedBody err).getD .null, ?_, ?_, ?_, ?_, ?_, ?_⟩
  · rw [hh]; exact o1
  · rw [hh, o2]; simp [errorReply]
  · rw [hh, o3, hres]; rfl
  · rw [hh, o4, hres]
  · intro b hb ht
    simp [attachedBody, hb, ht]
  · intro hall
    unfold attachedBody
    rcases hb : getProp err.response "body" with e | b
    · simp
    · simp [hall b hb]

/-! ## Concrete runs -/

/-- Witness for C1: a run of `get` and a run of `use` that reach the signed POST. -/
theorem signed_post_signs_transmitted_bytes_witness :
    (get (answering (.obj [])) (.str "v1") w0).2.trace.length = 2 ∧
    (use (answering (.obj [])) (.num (.fin 100)) (.arr [.str "v1"]) w0).2.trace.length = 2 ∧
    (∃ nonce key B,
      (get (answering (.obj [])) (.str "v1") w0).2.stringified =
        w0.stringified ++
          [.obj [("id", .str "v1"), ("apiKey", (answering (.obj [])).API_KEY), ("nonce", nonce)]] ∧
      B = bufferFrom ((answering (.obj [])).stringify
        (.obj [("id", .str "v1"), ("apiKey", (answering (.obj [])).API_KEY), ("nonce", nonce)])) ∧
      ReqBody.raw (bufferFrom "\x7b\x7d") = .raw B ∧
      (get (answering (.obj [])) (.str "v1") w0).2._key = some key ∧
      some "v2.public.sig" =
        some ((answering (.obj [])).sign (bufferFrom ((answering (.obj [])).sha256hex B)) key)) ∧
    (∃ nonce key B,
      (use (answering (.obj [])) (.num (.fin 100)) (.arr [.str "v1"]) w0).2.stringified =
        w0.stringified ++ [.obj [("cartAmount", .num (.fin 100)),
          ("vouchers", .arr [.str "v1"]), ("apiKey", (answering (.obj [])).API_KEY),
          ("nonce", nonce)]] ∧
      B = bufferFrom ((answering (.obj [])).stringify (.obj [("cartAmount", .num (.fin 100)),
          ("vouchers", .arr [.str "v1"]), ("apiKey", (answering (.obj [])).API_KEY),
          ("nonce", nonce)])) ∧
      ReqBody.raw (bufferFrom "\x7b\x7d") = .raw B ∧
      (use (answering (.obj [])) (.num (.fin 100)) (.arr [.str "v1"]) w0).2._key = some key ∧
      some "v2.public.sig" =
        some ((answering (.obj [])).sign (bufferFrom ((answering (.obj [])).sha256hex B)) key)) :=
  ⟨rfl, rfl,
    (signed_post_signs_transmitted_bytes (answering (.obj [])) (.str "v1") (.num (.fin 100))
      (.arr [.str "v1"]) w0).1 (firstHandshake (.obj []))
      ⟨{ sess := 0, url := "https://up/partner/voucher/get", body := .raw (bufferFrom "\x7b\x7d"),
         headers := [("Content-Type", "application/json"), ("x-signature", "v2.public.sig")] },
        answer (.obj [])⟩ rfl,
    (signed_post_signs_transmitted_bytes (answering (.obj [])) (.str "v1") (.num (.fin 100))
      (.arr [.str "v1"]) w0).2 (firstHandshake (.obj []))
      ⟨{ sess := 0, url := "https://up/partner/voucher/use", body := .raw (bufferFrom "\x7b\x7d"),
         headers := [("Content-Type", "application/json"), ("x-signature", "v2.public.sig")] },
        answer (.obj [])⟩ rfl⟩

/-- Witness for C2: an envelope with `success: false` around an expired, used
voucher is reported as the upstream failure; an envelope with `success: true`
around a voucher that expired on 2000-01-01 and is also used is reported as
expired. -/
theorem get_reports_first_failing_check_witness :
    (get (answering (envelope false (voucherOf "2000-01-01T00:00:00Z" true))) (.str "v1") w0).1 =
      .ok (.obj [("success", .bool false),
        ("upstreamResponse", envelope false (voucherOf "2000-01-01T00:00:00Z" true))]) ∧
    (get (answering (envelope true (voucherOf "2000-01-01T00:00:00Z" true))) (.str "v1") w0).1 =
      .ok (.obj [("success", .bool false), ("reason", .str "expired")]) :=
  ⟨(get_reports_first_failing_check
      (answering (envelope false (voucherOf "2000-01-01T00:00:00Z" true))) (.str "v1") w0
      (firstHandshake (envelope false (voucherOf "2000-01-01T00:00:00Z" true))) _
      ⟨envelope false (voucherOf "2000-01-01T00:00:00Z" true), []⟩ (.bool false)
      rfl rfl rfl).1 rfl,
   (get_reports_first_failing_check
      (answering (envelope true (voucherOf "2000-01-01T00:00:00Z" true))) (.str "v1") w0
      (firstHandshake (envelope true (voucherOf "2000-01-01T00:00:00Z" true))) _
      ⟨envelope true (voucherOf "2000-01-01T00:00:00Z" true), []⟩ (.bool true)
      rfl rfl rfl).2 (voucherOf "2000-01-01T00:00:00Z" true) (.str "2000-01-01T00:00:00Z")
      946684800000 rfl rfl rfl rfl (by decide)⟩

/-- Witness for C3: an unused voucher expiring in 2100 is returned unchanged. -/
theorem get_returns_valid_voucher_unchanged_witness :
    (get (answering (envelope true (voucherOf "2100-01-01T00:00:00Z" false))) (.str "v1") w0).1 =
      .ok (.obj [("success", .bool true), ("voucher", voucherOf "2100-01-01T00:00:00Z" false)]) :=
  get_returns_valid_voucher_unchanged
    (answering (envelope true (voucherOf "2100-01-01T00:00:00Z" false))) (.str "v1") w0
    (firstHandshake (envelope true (voucherOf "2100-01-01T00:00:00Z" false))) _
    ⟨envelope true (voucherOf "2100-01-01T00:00:00Z" false), []⟩ (.bool true)
    (voucherOf "2100-01-01T00:00:00Z" false) (.str "2100-01-01T00:00:00Z") (.bool false)
    4102444800000 rfl rfl rfl rfl rfl rfl rfl (by decide) rfl rfl

/-- Witness for C4: a used voucher expiring in 2100 is reported as used. -/
theorem get_reports_used_voucher_witness :
    (get (answering (envelope true (voucherOf "2100-01-01T00:00:00Z" true))) (.str "v1") w0).1 =
      .ok (.obj [("success", .bool false), ("reason", .str "used")]) :=
  get_reports_used_voucher
    (answering (envelope true (voucherOf "2100-01-01T00:00:00Z" true))) (.str "v1") w0
    (firstHandshake (envelope true (voucherOf "2100-01-01T00:00:00Z" true))) _
    ⟨envelope true (voucherOf "2100-01-01T00:00:00Z" true), []⟩ (.bool true)
    (voucherOf "2100-01-01T00:00:00Z" true) (.str "2100-01-01T00:00:00Z") (.bool true)
    4102444800000 rfl rfl rfl rfl rfl rfl rfl (by decide) rfl rfl

/-- Witness for C10: `success: true` without a voucher makes `get` raise;
`success: false` without a voucher is returned as the upstream failure. -/
theorem get_raises_on_missing_voucher_witness :
    (get (answering (.obj [("success", .bool true)])) (.str "v1") w0).1 =
      .error (typeError "expirationDate") ∧
    (get (answering (.obj [("success", .bool false)])) (.str "v1") w0).1 =
      .ok (.obj [("success", .bool false),
        ("upstreamResponse", .obj [("success", .bool false)])]) :=
  ⟨(get_raises_on_missing_voucher (answering (.obj [("success", .bool true)])) (.str "v1") w0
      (firstHandshake (.obj [("success", .bool true)])) _
      ⟨.obj [("success", .bool true)], []⟩ (.bool true) rfl rfl rfl rfl).1 rfl,
   (get_raises_on_missing_voucher (answering (.obj [("success", .bool false)])) (.str "v1") w0
      (firstHandshake (.obj [("success", .bool false)])) _
      ⟨.obj [("success", .bool false)], []⟩ (.bool false) rfl rfl rfl rfl).2 rfl⟩

/-- Witness for C6: `use(100, ["v1","v2"])` against an upstream answering
`success: false` returns the failure carrying that envelope, and against one
answering `success: true` returns `success: true` alone. -/
theorem use_interprets_envelope_witness :
    (use (answering (.obj [("success", .bool false)])) (.num (.fin 100))
        (.arr [.str "v1", .str "v2"]) w0).1 =
      .ok (.obj [("success", .bool false),
        ("upstreamResponse", .obj [("success", .bool false)])]) ∧
    (use (answering (.obj [("success", .bool true)])) (.num (.fin 100))
        (.arr [.str "v1", .str "v2"]) w0).1 = .ok (.obj [("success", .bool true)]) :=
  ⟨(use_interprets_envelope (answering (.obj [("success", .bool false)])) (.num (.fin 100))
      (.arr [.str "v1", .str "v2"]) w0 (firstHandshake (.obj [("success", .bool false)])) _
      ⟨.obj [("success", .bool false)], []⟩ (.bool false) rfl rfl rfl).1 rfl,
   (use_interprets_envelope (answering (.obj [("success", .bool true)])) (.num (.fin 100))
      (.arr [.str "v1", .str "v2"]) w0 (firstHandshake (.obj [("success", .bool true)])) _
      ⟨.obj [("success", .bool true)], []⟩ (.bool true) rfl rfl rfl).2 rfl⟩

/-- Witness for C8 (amended): the result of `get` for a valid voucher and the
failure result of `use`. -/
theorem result_populates_at_most_one_field_witness :
    populatedCount
      (.obj [("success", .bool true), ("voucher", voucherOf "2100-01-01T00:00:00Z" false)]) = 1 ∧
    ((populatedCount (.obj [("success", .bool true)]) = 1 ∧
        ∃ b, JSVal.obj [("success", .bool true)] =
          .obj [("success", .bool false), ("upstreamResponse", b)]) ∨
      (populatedCount (.obj [("success", .bool true)]) = 0 ∧
        JSVal.obj [("success", .bool true)] = .obj [("success", .bool true)])) :=
  ⟨(result_populates_at_most_one_field
      (answering (envelope true (voucherOf "2100-01-01T00:00:00Z" false))) (.str "v1")
      (.num (.fin 100)) (.arr []) w0).1 _ rfl,
   (result_populates_at_most_one_field (answering (.obj [("success", .bool true)])) (.str "v1")
      (.num (.fin 100)) (.arr []) w0).2 _ rfl⟩

/-- Witness for C9 (amended): a request whose signed POST fails with an HTTP
error carrying the upstream body `error: "boom"`. -/
theorem handler_error_reply_witness :
    w0.res.ended = false ∧
    (route (fixtureEnv goodHandshake (.error (httpError (.obj [("error", .str "boom")]))))
      "/smarketoo/voucher/get?id=v1" w0).1 =
        .error (httpError (.obj [("error", .str "boom")])) ∧
    ∃ X,
      (handler (fixtureEnv goodHandshake (.error (httpError (.obj [("error", .str "boom")]))))
        "/smarketoo/voucher/get?id=v1" w0).1 = .ok () ∧
      (handler (fixtureEnv goodHandshake (.error (httpError (.obj [("error", .str "boom")]))))
        "/smarketoo/voucher/get?id=v1" w0).2.stringified.getLast? =
        some (.obj [("success", .bool false), ("upstreamError", X)]) ∧
      (handler (fixtureEnv goodHandshake (.error (httpError (.obj [("error", .str "boom")]))))
        "/smarketoo/voucher/get?id=v1" w0).2.res.written =
        w0.res.written ++
          [(fixtureEnv goodHandshake
              (.error (httpError (.obj [("error", .str "boom")])))).stringify
            (.obj [("success", .bool false), ("upstreamError", X)])] ∧
      (handler (fixtureEnv goodHandshake (.error (httpError (.obj [("error", .str "boom")]))))
        "/smarketoo/voucher/get?id=v1" w0).2.res.statusCode =
        (if w0.res.headersSent then w0.res.statusCode else 500) ∧
      (∀ b, getProp (httpError (.obj [("error", .str "boom")])).response "body" = .ok b →
        truthy b = true → X = b) ∧
      ((∀ b, getProp (httpError (.obj [("error", .str "boom")])).response "body" = .ok b →
        truthy b = false) → X = .null) :=
  ⟨rfl, rfl,
    handler_error_reply
      (fixtureEnv goodHandshake (.error (httpError (.obj [("error", .str "boom")]))))
      "/smarketoo/voucher/get?id=v1" w0 (httpError (.obj [("error", .str "boom")])) rfl rfl⟩

end Voucher
